import Mathlib

/-!
Shallow embedding of the Fitmate membership-payment reconciliation core:
the Stripe controller (`createCheckoutSession`, `handleWebhook`,
`verifySession`), the role-rank table `ROLE_RANK`, and the static plan
registry `STRIPE_PRICE_TO_PLAN`.

The database (Prisma) is modelled as an explicit state `St` holding the
`membershipPurchase` rows and the `user` rows; each Prisma call becomes an
explicit lookup or update on that state.  The Stripe client is external:
its answers (the checkout-session id at checkout time, the retrieved or
webhook-delivered session object at reconciliation time) are parameters of
the embedded functions.  JavaScript truthiness on nullable strings (where
both `null` and the empty string are falsy) is modelled by `strTruthy`.
-/

namespace Fitmate

/-- The Prisma `Role` enum. -/
inductive Role where
  | USER
  | USER_BRONZE
  | USER_GOLD
  | USER_PLATINUM
  | TRAINER
  | ADMIN
deriving DecidableEq, BEq, Repr, Fintype

/-- The manually defined `PaymentStatus` enum of the controller. -/
inductive PaymentStatus where
  | PENDING
  | PAID
deriving DecidableEq, BEq, Repr

/-- `ROLE_RANK` table of the Stripe controller. -/
def ROLE_RANK : Role → Nat
  | .USER => 0
  | .USER_BRONZE => 1
  | .USER_GOLD => 2
  | .USER_PLATINUM => 3
  | .TRAINER => 99
  | .ADMIN => 100

/-- Value type of the `STRIPE_PRICE_TO_PLAN` registry. -/
structure Plan where
  role : Role
  amount : Int
  currency : String
  label : String
deriving DecidableEq, Repr

/-- The static plan registry (`constants/stripePlans.ts`), keyed by price id. -/
def STRIPE_PRICE_TO_PLAN : List (String × Plan) :=
  [ ("price_1SHi6U3JFtC2WMSKhAQeq9c8", ⟨.USER_BRONZE, 49900, "THB", "Bronze 499"⟩),
    ("price_1SHi5X3JFtC2WMSKqqCbjHoV", ⟨.USER_GOLD, 129900, "THB", "Gold 1299"⟩),
    ("price_1SHi7b3JFtC2WMSKRkKDIGL0", ⟨.USER_PLATINUM, 299900, "THB", "Platinum 2999"⟩) ]

/-- `STRIPE_PRICE_TO_PLAN[priceId]` : key lookup in the registry. -/
def planLookup (priceId : String) : Option Plan :=
  (STRIPE_PRICE_TO_PLAN.find? (fun pr => pr.1 == priceId)).map Prod.snd

/-- `Object.values(STRIPE_PRICE_TO_PLAN).find(p => p.role === targetRole)`. -/
def planForRole (r : Role) : Option Plan :=
  (STRIPE_PRICE_TO_PLAN.map Prod.snd).find? (fun p => p.role == r)

/-- A `membershipPurchase` row. -/
structure Purchase where
  id : String
  userId : Nat
  targetRole : Role
  status : PaymentStatus
  amount : Option Int
  currency : Option String
  gateway : Option String
  externalId : Option String
deriving DecidableEq, Repr

/-- A `user` row (only the fields this core touches). -/
structure User where
  id : Nat
  role : Role
deriving DecidableEq, Repr

/-- The database state seen by the controller. -/
structure St where
  purchases : List Purchase
  users : List User
deriving DecidableEq, Repr

/-- `prisma.membershipPurchase.findUnique({ where: { id } })`. -/
def findPurchaseById (s : St) (pid : String) : Option Purchase :=
  s.purchases.find? (fun p => p.id == pid)

/-- `prisma.membershipPurchase.findFirst({ where: { externalId } })`. -/
def findPurchaseByExternalId (s : St) (sid : String) : Option Purchase :=
  s.purchases.find? (fun p => p.externalId == some sid)

/-- `prisma.user.findUnique({ where: { id } })`. -/
def findUserById (s : St) (uid : Nat) : Option User :=
  s.users.find? (fun u => u.id == uid)

/-- `prisma.membershipPurchase.update({ where: { id }, data })`:
rewrites the row(s) with the given id through `f`. -/
def updatePurchase (s : St) (pid : String) (f : Purchase → Purchase) : St :=
  { s with purchases := s.purchases.map (fun p => if p.id == pid then f p else p) }

/-- `prisma.user.update({ where: { id }, data: { role } })`. -/
def updateUserRole (s : St) (uid : Nat) (r : Role) : St :=
  { s with users := s.users.map (fun u => if u.id == uid then { u with role := r } else u) }

/-- Observed role of the user with the given id (first row with that id). -/
def userRole (s : St) (uid : Nat) : Option Role :=
  (findUserById s uid).map User.role

/-- JavaScript truthiness of a nullable string: `null` and `""` are falsy. -/
def strTruthy : Option String → Option String
  | some str => if str = "" then none else some str
  | none => none

/-- `(session.currency || purchase.currency || "THB").toUpperCase()`. -/
def settledCurrency (sessionCur purchaseCur : Option String) : String :=
  (match strTruthy sessionCur with
   | some c => c
   | none =>
     match strTruthy purchaseCur with
     | some c => c
     | none => "THB").toUpper

/-- The Stripe `Checkout.Session` object as this controller reads it:
from `event.data.object` on the webhook path, from
`stripe.checkout.sessions.retrieve` on the verify path. -/
structure SessionObj where
  id : String
  payment_status : String
  status : String
  amount_total : Option Int
  currency : Option String
  metadata_purchaseId : Option String
  metadata_targetRole : Option Role
deriving DecidableEq, Repr

/-- Checkout guard as written at its call site:
`ROLE_RANK[plan.role] <= ROLE_RANK[user.role]` (rejects the checkout). -/
def checkoutGuardRejects (userRole planRole : Role) : Bool :=
  decide (ROLE_RANK planRole ≤ ROLE_RANK userRole)

/-- Settlement-time upgrade check at the webhook call site:
`ROLE_RANK[targetRole] > ROLE_RANK[user.role]`. -/
def webhookUpgradeCheck (targetRole userRole : Role) : Bool :=
  decide (ROLE_RANK userRole < ROLE_RANK targetRole)

/-- Settlement-time upgrade check at the verify call site:
`ROLE_RANK[purchase.targetRole] > ROLE_RANK[user.role]`. -/
def verifyUpgradeCheck (targetRole userRole : Role) : Bool :=
  decide (ROLE_RANK userRole < ROLE_RANK targetRole)

/-- Successful checkout response body. -/
structure CheckoutOk where
  sessionId : String
  purchaseId : String
deriving DecidableEq, Repr

/-- HTTP outcome of `createCheckoutSession`. -/
inductive CheckoutResp where
  | badRequest (msg : String)
  | notFound (msg : String)
  | conflict (msg : String)
  | serverError
  | ok (r : CheckoutOk)
deriving DecidableEq, Repr

/-- Durable / external side effects of `createCheckoutSession`, in order. -/
inductive CheckoutEffect where
  | createPurchase (p : Purchase)
  | gatewayRequest (priceId purchaseId userId : String) (targetRole : Role)
  | setExternalId (purchaseId sessionId : String)
deriving DecidableEq, Repr

/-- Full outcome of one `createCheckoutSession` call. -/
structure CheckoutOut where
  resp : CheckoutResp
  state : St
  trace : List CheckoutEffect
deriving DecidableEq, Repr

/-- `POST /api/stripe/checkout`.  `newPurchaseId` is the id the store
generates for the created row; `gw` is the gateway's answer to the
checkout-session request (`some sessionId` on success, `none` when the
Stripe call throws). -/
def createCheckoutSession (userId? : Option Nat) (priceId? : Option String)
    (newPurchaseId : String) (gw : Option String) (s : St) : CheckoutOut :=
  match userId? with
  | none => ⟨.badRequest "userId required", s, []⟩
  | some uid =>
    match priceId? with
    | none => ⟨.badRequest "priceId required", s, []⟩
    | some priceId =>
      match planLookup priceId with
      | none => ⟨.badRequest "invalid priceId", s, []⟩
      | some plan =>
        match findUserById s uid with
        | none => ⟨.notFound "user not found", s, []⟩
        | some user =>
          if checkoutGuardRejects user.role plan.role then
            ⟨.conflict "already has equal or higher role", s, []⟩
          else
            let purchase : Purchase :=
              { id := newPurchaseId, userId := user.id, targetRole := plan.role,
                status := .PENDING, amount := some plan.amount,
                currency := some plan.currency, gateway := some "stripe",
                externalId := none }
            let s1 : St := { s with purchases := s.purchases ++ [purchase] }
            let t1 : List CheckoutEffect :=
              [.createPurchase purchase,
               .gatewayRequest priceId purchase.id (toString user.id) plan.role]
            match gw with
            | none => ⟨.serverError, s1, t1⟩
            | some sid =>
              ⟨.ok ⟨sid, purchase.id⟩,
               updatePurchase s1 purchase.id (fun p => { p with externalId := some sid }),
               t1 ++ [.setExternalId purchase.id sid]⟩

/-- Webhook `data` of the `membershipPurchase.update` that marks a purchase
paid: `{ status: PAID, amount: session.amount_total ?? purchase.amount ??
undefined, currency: (session.currency || purchase.currency ||
"THB").toUpperCase(), externalId: session.id }`. -/
def webhookPaidUpdate (session : SessionObj) (p : Purchase) : Purchase :=
  { p with
    status := .PAID,
    amount := match session.amount_total with
              | some a => some a
              | none => p.amount,
    currency := some (settledCurrency session.currency p.currency),
    externalId := some session.id }

/-- HTTP outcome of `handleWebhook` after signature verification. -/
inductive WebhookResp where
  | ack
deriving DecidableEq, Repr

/-- Full outcome of one `handleWebhook` call: response, resulting database
state, and the `console.warn` mismatch warnings it recorded. -/
structure WebhookOut where
  resp : WebhookResp
  state : St
  warnings : List String
deriving DecidableEq, Repr

/-- Purchase resolution as the webhook path performs it: solely
`findUnique({ where: { id: session.metadata.purchaseId } })`. -/
def webhookResolve (s : St) (session : SessionObj) : Option Purchase :=
  match strTruthy session.metadata_purchaseId with
  | none => none
  | some pid => findPurchaseById s pid

/-- The advisory amount/currency cross-check of the webhook path
(`console.warn` on mismatch, never blocking). -/
def crossCheckWarnings (session : SessionObj) (targetRole : Role) : List String :=
  match planForRole targetRole with
  | none => []
  | some plan =>
    (match session.amount_total with
     | some a => if a = plan.amount then [] else ["amount mismatch"]
     | none => []) ++
    (match strTruthy session.currency with
     | some c => if c.toUpper = plan.currency.toUpper then [] else ["currency mismatch"]
     | none => [])

/-- `POST /api/stripe/webhook`, after `constructEvent` succeeded:
the `checkout.session.completed` handler. -/
def handleWebhook (eventType : String) (session : SessionObj) (s : St) : WebhookOut :=
  if eventType = "checkout.session.completed" then
    match strTruthy session.metadata_purchaseId, session.metadata_targetRole with
    | some purchaseId, some targetRole =>
      match findPurchaseById s purchaseId with
      | none => ⟨.ack, s, []⟩
      | some purchase =>
        if purchase.status = .PAID then ⟨.ack, s, []⟩
        else
          let warnings := crossCheckWarnings session targetRole
          let s1 := updatePurchase s purchase.id (webhookPaidUpdate session)
          match findUserById s1 purchase.userId with
          | some user =>
            if webhookUpgradeCheck targetRole user.role then
              ⟨.ack, updateUserRole s1 user.id targetRole, warnings⟩
            else
              ⟨.ack, s1, warnings⟩
          | none => ⟨.ack, s1, warnings⟩
    | _, _ => ⟨.ack, s, ["missing purchaseId/targetRole"]⟩
  else ⟨.ack, s, []⟩

/-- Verify-path `data` of the paid update: like the webhook's, plus
`gateway: "stripe"`. -/
def verifyPaidUpdate (session : SessionObj) (p : Purchase) : Purchase :=
  { p with
    status := .PAID,
    amount := match session.amount_total with
              | some a => some a
              | none => p.amount,
    currency := some (settledCurrency session.currency p.currency),
    externalId := some session.id,
    gateway := some "stripe" }

/-- Purchase resolution of the verify path:
`findFirst({ externalId: session.id }) || (session.metadata?.purchaseId ?
findUnique({ id: session.metadata.purchaseId }) : null)`. -/
def verifyResolve (s : St) (session : SessionObj) : Option Purchase :=
  match findPurchaseByExternalId s session.id with
  | some p => some p
  | none =>
    match strTruthy session.metadata_purchaseId with
    | some pid => findPurchaseById s pid
    | none => none

/-- `session.payment_status === "paid" || session.status === "complete"`. -/
def verifyIsPaid (session : SessionObj) : Bool :=
  session.payment_status == "paid" || session.status == "complete"

/-- The purchase fields echoed in the verify response. -/
structure PurchaseView where
  id : String
  status : PaymentStatus
  targetRole : Role
deriving DecidableEq, Repr

/-- The `effects` block of the verify response. -/
structure VerifyEffects where
  didMarkPaid : Bool
  didUpgrade : Bool
  upgradedTo : Option Role
deriving DecidableEq, Repr

/-- HTTP outcome of `verifySession`. -/
inductive VerifyResp where
  | badRequest
  | ok (sessionId : String) (purchase : Option PurchaseView)
       (user : Option User) (effects : VerifyEffects)
deriving DecidableEq, Repr

/-- Full outcome of one `verifySession` call. -/
structure VerifyOut where
  resp : VerifyResp
  state : St
deriving DecidableEq, Repr

/-- `GET /api/stripe/verify?session_id=...`.  `sessionIdRaw` is the query
parameter; `session` is the object returned by
`stripe.checkout.sessions.retrieve`. -/
def verifySession (sessionIdRaw : String) (session : SessionObj) (s : St) : VerifyOut :=
  if sessionIdRaw = "" then ⟨.badRequest, s⟩
  else
    match verifyResolve s session with
    | none => ⟨.ok session.id none none ⟨false, false, none⟩, s⟩
    | some purchase0 =>
      match findUserById s purchase0.userId with
      | none =>
        ⟨.ok session.id (some ⟨purchase0.id, purchase0.status, purchase0.targetRole⟩)
            none ⟨false, false, none⟩, s⟩
      | some user =>
        if verifyIsPaid session then
          if purchase0.status = .PAID then
            if verifyUpgradeCheck purchase0.targetRole user.role then
              let s2 := updateUserRole s user.id purchase0.targetRole
              ⟨.ok session.id (some ⟨purchase0.id, purchase0.status, purchase0.targetRole⟩)
                  (findUserById s2 purchase0.userId)
                  ⟨false, true, some purchase0.targetRole⟩, s2⟩
            else
              ⟨.ok session.id (some ⟨purchase0.id, purchase0.status, purchase0.targetRole⟩)
                  (findUserById s purchase0.userId) ⟨false, false, none⟩, s⟩
          else
            let purchase1 := verifyPaidUpdate session purchase0
            let s1 := updatePurchase s purchase0.id (verifyPaidUpdate session)
            if verifyUpgradeCheck purchase1.targetRole user.role then
              let s2 := updateUserRole s1 user.id purchase1.targetRole
              ⟨.ok session.id (some ⟨purchase1.id, purchase1.status, purchase1.targetRole⟩)
                  (findUserById s2 purchase1.userId)
                  ⟨true, true, some purchase1.targetRole⟩, s2⟩
            else
              ⟨.ok session.id (some ⟨purchase1.id, purchase1.status, purchase1.targetRole⟩)
                  (findUserById s1 purchase1.userId) ⟨true, false, none⟩, s1⟩
        else
          ⟨.ok session.id (some ⟨purchase0.id, purchase0.status, purchase0.targetRole⟩)
              (findUserById s purchase0.userId) ⟨false, false, none⟩, s⟩

/-!
Interleaving model of the verify path.  One `verifySession` invocation is
a sequence of awaited store operations: first the reads (resolve the
purchase, fetch the user), then the writes (the paid update if the status
read back was not `PAID`, then the role update if the rank check passes).
`verifyReadPhase`/`verifyWritePhase` split `verifySession` at that
read/write boundary — `verify_decompose` below proves the split exact —
so that concurrent invocations can be modelled as interleavings of their
atomic store operations.
-/

/-- The values one verify invocation has read before its first write. -/
structure VerifyReads where
  purchase : Option Purchase
  user : Option User
deriving DecidableEq, Repr

/-- Read phase of one verify invocation against the current store. -/
def verifyReadPhase (session : SessionObj) (s : St) : VerifyReads :=
  match verifyResolve s session with
  | some p => ⟨some p, findUserById s p.userId⟩
  | none => ⟨none, none⟩

/-- Write phase of one verify invocation: the store writes it performs,
deciding from the values it read earlier (not from the current store).
Returns the new store and the `(didMarkPaid, didUpgrade)` flags. -/
def verifyWritePhase (session : SessionObj) (r : VerifyReads) (s : St) :
    St × Bool × Bool :=
  match r.purchase, r.user with
  | some purchase0, some user =>
    if verifyIsPaid session then
      if purchase0.status = .PAID then
        if verifyUpgradeCheck purchase0.targetRole user.role then
          (updateUserRole s user.id purchase0.targetRole, false, true)
        else (s, false, false)
      else
        let s1 := updatePurchase s purchase0.id (verifyPaidUpdate session)
        if verifyUpgradeCheck purchase0.targetRole user.role then
          (updateUserRole s1 user.id purchase0.targetRole, true, true)
        else (s1, true, false)
    else (s, false, false)
  | _, _ => (s, false, false)

/-- Two concurrent verify invocations for the same session, interleaved as
read₁, read₂, write₁, write₂ (both read before either writes): the store
they end at and each invocation's `didMarkPaid` flag. -/
def twoVerifyRace (session : SessionObj) (s : St) : St × Bool × Bool :=
  let r1 := verifyReadPhase session s
  let r2 := verifyReadPhase session s
  let w1 := verifyWritePhase session r1 s
  let w2 := verifyWritePhase session r2 w1.1
  (w2.1, w1.2.1, w2.2.1)

/-!
Concrete states used by the claim-level counterexamples and witnesses.
-/

/-- C1 scenario: one user at `USER`, one `PENDING` Gold purchase already
linked to gateway session `cs_1`. -/
def c1St : St :=
  ⟨[⟨"p1", 1, .USER_GOLD, .PENDING, some 129900, some "THB", some "stripe", some "cs_1"⟩],
   [⟨1, .USER⟩]⟩

/-- C1 scenario: the completed-payment session object for `cs_1`. -/
def c1Sess : SessionObj :=
  ⟨"cs_1", "paid", "complete", some 129900, some "thb", some "p1", some .USER_GOLD⟩

/-- C2 scenario: purchase `pA` carries `externalId = "cs_1"`; purchase `pB`
has no externalId. -/
def c2St : St :=
  ⟨[⟨"pA", 1, .USER_GOLD, .PENDING, some 129900, some "THB", some "stripe", some "cs_1"⟩,
    ⟨"pB", 2, .USER_BRONZE, .PENDING, some 49900, some "THB", some "stripe", none⟩],
   [⟨1, .USER⟩, ⟨2, .USER⟩]⟩

/-- C2 scenario: an event whose session id is `cs_1` (matching `pA` by
externalId) while its correlation metadata names `pB`. -/
def c2Sess : SessionObj :=
  ⟨"cs_1", "paid", "complete", some 49900, some "THB", some "pB", some .USER_BRONZE⟩

/-- C3 scenario: the Gold purchase is already `PAID` but its user is still
at `USER` (the settled-but-not-upgraded crash window). -/
def c3St : St :=
  ⟨[⟨"p1", 1, .USER_GOLD, .PAID, some 129900, some "THB", some "stripe", some "cs_1"⟩],
   [⟨1, .USER⟩]⟩

/-- C3 scenario: a completed-payment event for that settled purchase. -/
def c3Sess : SessionObj :=
  ⟨"cs_1", "paid", "complete", some 129900, some "THB", some "p1", some .USER_GOLD⟩

/-!
Helper lemmas about the list-backed store.
-/

/-- `find?` over a list rewritten by `if m x then g x else x`: the first
`q`-match `p` is rewritten in place when `m` holds of it, provided every
member satisfying `m` already satisfies `q` (so no earlier element starts
matching) and the rewrite keeps `p` matching. -/
theorem find?_map_if {α : Type} (q m : α → Bool) (g : α → α) :
    ∀ (l : List α) (p : α),
      l.find? q = some p →
      (∀ x, x ∈ l → m x = true → q x = true) →
      m p = true →
      q (g p) = true →
      (l.map (fun x => if m x then g x else x)).find? q = some (g p) := by
  intro l
  induction l with
  | nil => intro p h; cases h
  | cons a t ih =>
    intro p hfind hml hmp hgq
    by_cases hq : q a = true
    · rw [List.find?_cons_of_pos _ hq] at hfind
      cases hfind
      simp only [List.map_cons]
      rw [if_pos hmp, List.find?_cons_of_pos _ hgq]
    · rw [List.find?_cons_of_neg _ hq] at hfind
      have hma : ¬ (m a = true) := fun h => hq (hml a (List.mem_cons_self a t) h)
      simp only [List.map_cons]
      rw [if_neg hma, List.find?_cons_of_neg _ hq]
      exact ih p hfind (fun x hx => hml x (List.mem_cons_of_mem a hx)) hmp hgq

/-- `find?` over a list rewritten by `if m x then g x else x` when nothing
matched `q` before: if `p` is the unique member satisfying `m` and its
rewrite matches `q`, the rewritten `p` is found. -/
theorem find?_map_if_none {α : Type} (q m : α → Bool) (g : α → α) :
    ∀ (l : List α) (p : α),
      l.find? q = none →
      p ∈ l →
      (∀ x, x ∈ l → m x = true → x = p) →
      m p = true →
      q (g p) = true →
      (l.map (fun x => if m x then g x else x)).find? q = some (g p) := by
  intro l
  induction l with
  | nil => intro p _ hmem; cases hmem
  | cons a t ih =>
    intro p hnone hmem huniq hmp hgq
    have hq : ¬ (q a = true) := by
      intro h
      rw [List.find?_cons_of_pos _ h] at hnone
      cases hnone
    rw [List.find?_cons_of_neg _ hq] at hnone
    by_cases hma : m a = true
    · have hap : a = p := huniq a (List.mem_cons_self a t) hma
      subst hap
      simp only [List.map_cons]
      rw [if_pos hma, List.find?_cons_of_pos _ hgq]
    · have hpt : p ∈ t := by
        rcases List.mem_cons.mp hmem with h | h
        · subst h; exact absurd hmp hma
        · exact h
      simp only [List.map_cons]
      rw [if_neg hma, List.find?_cons_of_neg _ hq]
      exact ih p hnone hpt (fun x hx => huniq x (List.mem_cons_of_mem a hx)) hmp hgq

/-- An updated purchase keeps its id (webhook-path data). -/
theorem webhookPaidUpdate_id (session : SessionObj) (p : Purchase) :
    (webhookPaidUpdate session p).id = p.id := rfl

/-- An updated purchase keeps its id (verify-path data). -/
theorem verifyPaidUpdate_id (session : SessionObj) (p : Purchase) :
    (verifyPaidUpdate session p).id = p.id := rfl

/-- `updatePurchase` does not touch the users table. -/
theorem users_updatePurchase (s : St) (pid : String) (f : Purchase → Purchase) :
    (updatePurchase s pid f).users = s.users := rfl

/-- `updateUserRole` does not touch the purchases table. -/
theorem purchases_updateUserRole (s : St) (uid : Nat) (r : Role) :
    (updateUserRole s uid r).purchases = s.purchases := rfl

/-- User lookup after a purchase update is unchanged. -/
theorem findUserById_updatePurchase (s : St) (pid : String)
    (f : Purchase → Purchase) (uid : Nat) :
    findUserById (updatePurchase s pid f) uid = findUserById s uid := rfl

/-- Purchase lookup after a user update is unchanged. -/
theorem findPurchaseById_updateUserRole (s : St) (uid : Nat) (r : Role)
    (pid : String) :
    findPurchaseById (updateUserRole s uid r) pid = findPurchaseById s pid := rfl

/-- Purchase-by-externalId lookup after a user update is unchanged. -/
theorem findPurchaseByExternalId_updateUserRole (s : St) (uid : Nat) (r : Role)
    (sid : String) :
    findPurchaseByExternalId (updateUserRole s uid r) sid =
      findPurchaseByExternalId s sid := rfl

/-- Verify-path resolution after a user update is unchanged. -/
theorem verifyResolve_updateUserRole (s : St) (uid : Nat) (r : Role)
    (session : SessionObj) :
    verifyResolve (updateUserRole s uid r) session = verifyResolve s session := rfl

/-- User lookup over the whole-table role rewrite. -/
theorem findUserById_updateUserRole (s : St) (uid uq : Nat) (r : Role) :
    findUserById (updateUserRole s uid r) uq =
      (findUserById s uq).map
        (fun u => if u.id == uid then { u with role := r } else u) := by
  unfold findUserById updateUserRole
  rw [List.find?_map]
  have hpred : ((fun u : User => u.id == uq) ∘
        (fun u => if u.id == uid then { u with role := r } else u))
      = (fun u : User => u.id == uq) := by
    funext u
    by_cases hu : (u.id == uid) = true
    · simp [Function.comp, hu]
    · simp [Function.comp, hu]
  rw [hpred]

/-- The element `find?` returns satisfies the predicate. -/
theorem find?_pred {α : Type} (q : α → Bool) (l : List α) (p : α)
    (h : l.find? q = some p) : q p = true :=
  List.find?_some h

/-- Purchase lookup by id after `updatePurchase` on that same id. -/
theorem findPurchaseById_updatePurchase_self (s : St) (pid : String)
    (f : Purchase → Purchase) (p : Purchase)
    (hid : ∀ x, (f x).id = x.id)
    (hfind : findPurchaseById s pid = some p) :
    findPurchaseById (updatePurchase s pid f) pid = some (f p) := by
  have hq := find?_pred _ _ _ hfind
  have hgq : ((f p).id == pid) = true := by rw [hid p]; exact hq
  exact find?_map_if _ _ _ s.purchases p hfind (fun x _ hm => hm) hq hgq

/-- The paid update keeps the target role. -/
theorem verifyPaidUpdate_targetRole (session : SessionObj) (p : Purchase) :
    (verifyPaidUpdate session p).targetRole = p.targetRole := rfl

/-- The split of `verifySession` into read phase and write phase is exact:
for a non-empty query parameter, the final store of `verifySession` is the
store produced by running the write phase on the values of the read phase. -/
theorem verify_decompose (raw : String) (session : SessionObj) (s : St)
    (hraw : raw ≠ "") :
    (verifySession raw session s).state
      = (verifyWritePhase session (verifyReadPhase session s) s).1 := by
  unfold verifySession verifyReadPhase verifyWritePhase
  rw [if_neg hraw]
  cases hres : verifyResolve s session with
  | none => rfl
  | some p =>
    dsimp only
    cases huser : findUserById s p.userId with
    | none => rfl
    | some user =>
      dsimp only [verifyPaidUpdate_targetRole]
      by_cases hp : verifyIsPaid session = true
      · rw [if_pos hp, if_pos hp]
        by_cases hst : p.status = PaymentStatus.PAID
        · rw [if_pos hst, if_pos hst]
          by_cases hck : verifyUpgradeCheck p.targetRole user.role = true
          · rw [if_pos hck, if_pos hck]
          · rw [if_neg hck, if_neg hck]
        · rw [if_neg hst, if_neg hst]
          by_cases hck : verifyUpgradeCheck p.targetRole user.role = true
          · rw [if_pos hck, if_pos hck]
          · rw [if_neg hck, if_neg hck]
      · rw [if_neg hp, if_neg hp]

/-!
Claim theorems.
-/

/-- C1: the claim asserts that of N concurrent reconcile invocations for
the same session exactly one performs the PENDING → PAID transition, the
others observing the purchase as already settled, because the PAID write
is conditioned on the status still being non-PAID at write time.  The code
has no such condition: the status gate is a read followed by an
unconditional `update`.  In the interleaving where two concurrent verify
invocations both read before either writes, both pass the gate and both
perform the PAID write (`didMarkPaid = true` twice), the second doing so
when the stored status is already PAID. -/
theorem C1_unconditional_write_double_settle :
    (twoVerifyRace c1Sess c1St).2 = (true, true)
    ∧ (findPurchaseById (verifyWritePhase c1Sess (verifyReadPhase c1Sess c1St) c1St).1 "p1").map
        Purchase.status = some .PAID
    ∧ userRole (twoVerifyRace c1Sess c1St).1 1 = some .USER_GOLD := by
  decide

/-- C2: the claim asserts both entry points resolve the purchase by
`externalId == sessionId` first, falling back to the metadata purchase id.
Counterexample: purchase `pA` matches the event's session id by
`externalId`, yet the webhook settles `pB`, the purchase named by the
metadata — the webhook path never consults `externalId`. -/
theorem C2_webhook_resolves_by_metadata_only :
    findPurchaseByExternalId c2St c2Sess.id
      = some ⟨"pA", 1, .USER_GOLD, .PENDING, some 129900, some "THB", some "stripe", some "cs_1"⟩
    ∧ (findPurchaseById (handleWebhook "checkout.session.completed" c2Sess c2St).state "pA").map
        Purchase.status = some .PENDING
    ∧ (findPurchaseById (handleWebhook "checkout.session.completed" c2Sess c2St).state "pB").map
        Purchase.status = some .PAID := by
  decide

/-- C3: the claim asserts that both entry points re-evaluate the upgrade
check even when the purchase is already PAID.  On a purchase already PAID
whose user still ranks below the target role, the webhook acknowledges
without touching the store (no upgrade), while the verify path performs
the deferred upgrade — so the claim fails on the webhook path. -/
theorem C3_webhook_skips_upgrade_repair :
    webhookUpgradeCheck .USER_GOLD .USER = true
    ∧ (handleWebhook "checkout.session.completed" c3Sess c3St).state = c3St
    ∧ userRole (verifySession "cs_1" c3Sess c3St).state 1 = some .USER_GOLD
    ∧ (verifySession "cs_1" c3Sess c3St).resp
        = .ok "cs_1" (some ⟨"p1", .PAID, .USER_GOLD⟩) (some ⟨1, .USER_GOLD⟩)
            ⟨false, true, some .USER_GOLD⟩ := by
  decide

/-- C6: for every pair of roles, the initiation-time guard (the checkout
rejection test) and the settlement-time upgrade checks of the webhook and
verify paths agree: checkout rejects exactly when settlement would skip
the upgrade, all three deciding by `ROLE_RANK` comparison. -/
theorem C6_guards_agree :
    ∀ cur tgt : Role,
      (checkoutGuardRejects cur tgt = true ↔ webhookUpgradeCheck tgt cur = false)
      ∧ webhookUpgradeCheck tgt cur = verifyUpgradeCheck tgt cur := by
  decide

/-- A synchronously rejecting checkout response (4xx). -/
def isRejection : CheckoutResp → Bool
  | .badRequest _ => true
  | .notFound _ => true
  | .conflict _ => true
  | .serverError => false
  | .ok _ => false

/-- Every checkout call either rejects with the store untouched and no side
effect performed, or all validations passed. -/
theorem checkout_cases (userId? : Option Nat) (priceId? : Option String)
    (npid : String) (gw : Option String) (s : St) :
    ((createCheckoutSession userId? priceId? npid gw s).state = s
      ∧ (createCheckoutSession userId? priceId? npid gw s).trace = []
      ∧ isRejection (createCheckoutSession userId? priceId? npid gw s).resp = true)
    ∨ (∃ uid u pid plan, userId? = some uid ∧ findUserById s uid = some u
        ∧ priceId? = some pid ∧ planLookup pid = some plan
        ∧ ROLE_RANK u.role < ROLE_RANK plan.role) := by
  unfold createCheckoutSession
  cases userId? with
  | none => exact Or.inl ⟨rfl, rfl, rfl⟩
  | some uid =>
    dsimp only
    cases priceId? with
    | none => exact Or.inl ⟨rfl, rfl, rfl⟩
    | some pid =>
      dsimp only
      cases hplan : planLookup pid with
      | none => exact Or.inl ⟨rfl, rfl, rfl⟩
      | some plan =>
        dsimp only
        cases huser : findUserById s uid with
        | none => exact Or.inl ⟨rfl, rfl, rfl⟩
        | some u =>
          dsimp only
          by_cases hg : checkoutGuardRejects u.role plan.role = true
          · rw [if_pos hg]
            exact Or.inl ⟨rfl, rfl, rfl⟩
          · refine Or.inr ⟨uid, u, pid, plan, rfl, huser, rfl, hplan, ?_⟩
            simp only [checkoutGuardRejects, decide_eq_true_eq] at hg
            omega

/-- C5: `createCheckoutSession` rejects synchronously — store untouched,
no purchase created, no gateway call — whenever the userId is missing or
unknown, the priceId is missing or not in the plan registry, or the rank
guard `ROLE_RANK[plan.role] <= ROLE_RANK[user.role]` fires; and the
purchases table changes only when every one of those validations passed. -/
theorem C5_checkout_validation (userId? : Option Nat) (priceId? : Option String)
    (npid : String) (gw : Option String) (s : St) :
    ((userId? = none
      ∨ (∃ uid, userId? = some uid ∧ findUserById s uid = none)
      ∨ priceId? = none
      ∨ (∃ pid, priceId? = some pid ∧ planLookup pid = none)
      ∨ (∃ uid u pid plan, userId? = some uid ∧ findUserById s uid = some u
          ∧ priceId? = some pid ∧ planLookup pid = some plan
          ∧ ROLE_RANK plan.role ≤ ROLE_RANK u.role)) →
      ((createCheckoutSession userId? priceId? npid gw s).state = s
        ∧ (createCheckoutSession userId? priceId? npid gw s).trace = []
        ∧ isRejection (createCheckoutSession userId? priceId? npid gw s).resp = true))
    ∧ ((createCheckoutSession userId? priceId? npid gw s).state.purchases ≠ s.purchases →
        ∃ uid u pid plan, userId? = some uid ∧ findUserById s uid = some u
          ∧ priceId? = some pid ∧ planLookup pid = some plan
          ∧ ROLE_RANK u.role < ROLE_RANK plan.role) := by
  rcases checkout_cases userId? priceId? npid gw s with hrej | hvalid
  · refine ⟨fun _ => hrej, fun hch => absurd ?_ hch⟩
    rw [hrej.1]
  · refine ⟨fun hbad => ?_, fun _ => hvalid⟩
    obtain ⟨uid, u, pid, plan, huid, hu, hpid, hplan, hrank⟩ := hvalid
    rcases hbad with h | ⟨uid2, h1, h2⟩ | h | ⟨pid2, h1, h2⟩ | ⟨uid2, u2, pid2, plan2, h1, h2, h3, h4, h5⟩
    · rw [huid] at h; cases h
    · rw [huid] at h1
      cases h1
      rw [hu] at h2; cases h2
    · rw [hpid] at h; cases h
    · rw [hpid] at h1
      cases h1
      rw [hplan] at h2; cases h2
    · rw [huid] at h1
      cases h1
      rw [hu] at h2
      cases h2
      rw [hpid] at h3
      cases h3
      rw [hplan] at h4
      cases h4
      omega

/-- C5 witness: checkout for a user already at the target's rank is
rejected with the store untouched. -/
theorem C5_checkout_validation_witness :
    (createCheckoutSession (some 1) (some "price_1SHi5X3JFtC2WMSKqqCbjHoV") "p9" (some "cs_9")
        ⟨[], [⟨1, .USER_GOLD⟩]⟩).state = ⟨[], [⟨1, .USER_GOLD⟩]⟩
    ∧ (createCheckoutSession (some 1) (some "price_1SHi5X3JFtC2WMSKqqCbjHoV") "p9" (some "cs_9")
        ⟨[], [⟨1, .USER_GOLD⟩]⟩).trace = []
    ∧ isRejection (createCheckoutSession (some 1) (some "price_1SHi5X3JFtC2WMSKqqCbjHoV") "p9"
        (some "cs_9") ⟨[], [⟨1, .USER_GOLD⟩]⟩).resp = true :=
  (C5_checkout_validation (some 1) (some "price_1SHi5X3JFtC2WMSKqqCbjHoV") "p9" (some "cs_9")
      ⟨[], [⟨1, .USER_GOLD⟩]⟩).1
    (Or.inr (Or.inr (Or.inr (Or.inr
      ⟨1, ⟨1, .USER_GOLD⟩, "price_1SHi5X3JFtC2WMSKqqCbjHoV",
       ⟨.USER_GOLD, 129900, "THB", "Gold 1299"⟩, rfl, by decide, rfl, by decide, by decide⟩))))

/-- C7: an event that resolves no purchase — no stored purchase carries the
event's session id as `externalId` and the metadata purchase id (if any)
matches no purchase — leaves the store untouched on both entry points, and
the webhook still answers the 200 acknowledgment rather than a retry
signal. -/
theorem C7_unresolvable_event_frame (session : SessionObj) (s : St) (raw : String)
    (hext : findPurchaseByExternalId s session.id = none)
    (hpid : ∀ pid, strTruthy session.metadata_purchaseId = some pid →
        findPurchaseById s pid = none) :
    (handleWebhook "checkout.session.completed" session s).state = s
    ∧ (handleWebhook "checkout.session.completed" session s).resp = .ack
    ∧ (verifySession raw session s).state = s := by
  have hres : verifyResolve s session = none := by
    unfold verifyResolve
    rw [hext]
    cases hm : strTruthy session.metadata_purchaseId with
    | none => rfl
    | some pid => exact hpid pid hm
  have hweb : (handleWebhook "checkout.session.completed" session s).state = s
      ∧ (handleWebhook "checkout.session.completed" session s).resp = .ack := by
    unfold handleWebhook
    rw [if_pos rfl]
    cases hm : strTruthy session.metadata_purchaseId with
    | none =>
      cases session.metadata_targetRole with
      | none => exact ⟨rfl, rfl⟩
      | some tr => exact ⟨rfl, rfl⟩
    | some pid =>
      cases session.metadata_targetRole with
      | none => exact ⟨rfl, rfl⟩
      | some tr =>
        dsimp only
        rw [hpid pid hm]
        exact ⟨rfl, rfl⟩
  refine ⟨hweb.1, hweb.2, ?_⟩
  unfold verifySession
  by_cases hraw : raw = ""
  · rw [if_pos hraw]
  · rw [if_neg hraw, hres]

/-- C7 witness: a paid event for a foreign session resolves nothing and
changes nothing, and is still acknowledged. -/
theorem C7_unresolvable_event_frame_witness :
    (handleWebhook "checkout.session.completed"
        ⟨"cs_x", "paid", "complete", some 100, some "THB", some "nope", some .USER_GOLD⟩
        ⟨[], [⟨1, .USER⟩]⟩).state = ⟨[], [⟨1, .USER⟩]⟩
    ∧ (handleWebhook "checkout.session.completed"
        ⟨"cs_x", "paid", "complete", some 100, some "THB", some "nope", some .USER_GOLD⟩
        ⟨[], [⟨1, .USER⟩]⟩).resp = .ack
    ∧ (verifySession "cs_x"
        ⟨"cs_x", "paid", "complete", some 100, some "THB", some "nope", some .USER_GOLD⟩
        ⟨[], [⟨1, .USER⟩]⟩).state = ⟨[], [⟨1, .USER⟩]⟩ :=
  C7_unresolvable_event_frame
    ⟨"cs_x", "paid", "complete", some 100, some "THB", some "nope", some .USER_GOLD⟩
    ⟨[], [⟨1, .USER⟩]⟩ "cs_x" (by decide)
    (by intro pid h; cases h; decide)

/-- C10: when the verify path resolves a purchase whose `userId` matches no
stored user, it performs no write at all — even for a paid session — and
still responds 200 with the purchase's current state and a null user. -/
theorem C10_missing_user_frame (raw : String) (session : SessionObj) (s : St)
    (p : Purchase) (hraw : raw ≠ "")
    (hres : verifyResolve s session = some p)
    (huser : findUserById s p.userId = none) :
    (verifySession raw session s).state = s
    ∧ (verifySession raw session s).resp
        = .ok session.id (some ⟨p.id, p.status, p.targetRole⟩) none ⟨false, false, none⟩ := by
  unfold verifySession
  rw [if_neg hraw, hres]
  dsimp only
  rw [huser]
  exact ⟨rfl, rfl⟩

/-- C10 witness: a paid session whose purchase references a missing user
changes nothing; the response carries the still-PENDING purchase and a
null user. -/
theorem C10_missing_user_frame_witness :
    (verifySession "cs_1"
        ⟨"cs_1", "paid", "complete", some 129900, some "THB", some "p1", some .USER_GOLD⟩
        ⟨[⟨"p1", 7, .USER_GOLD, .PENDING, some 129900, some "THB", some "stripe", some "cs_1"⟩],
         [⟨1, .USER⟩]⟩).state
      = ⟨[⟨"p1", 7, .USER_GOLD, .PENDING, some 129900, some "THB", some "stripe", some "cs_1"⟩],
         [⟨1, .USER⟩]⟩
    ∧ (verifySession "cs_1"
        ⟨"cs_1", "paid", "complete", some 129900, some "THB", some "p1", some .USER_GOLD⟩
        ⟨[⟨"p1", 7, .USER_GOLD, .PENDING, some 129900, some "THB", some "stripe", some "cs_1"⟩],
         [⟨1, .USER⟩]⟩).resp
      = .ok "cs_1" (some ⟨"p1", .PENDING, .USER_GOLD⟩) none ⟨false, false, none⟩ :=
  C10_missing_user_frame "cs_1"
    ⟨"cs_1", "paid", "complete", some 129900, some "THB", some "p1", some .USER_GOLD⟩
    ⟨[⟨"p1", 7, .USER_GOLD, .PENDING, some 129900, some "THB", some "stripe", some "cs_1"⟩],
     [⟨1, .USER⟩]⟩
    ⟨"p1", 7, .USER_GOLD, .PENDING, some 129900, some "THB", some "stripe", some "cs_1"⟩
    (by decide) (by decide) (by decide)

/-- A freshly appended purchase with a fresh id is what lookup by that id
finds. -/
theorem findPurchaseById_append_fresh (s : St) (x : Purchase) (npid : String)
    (hfresh : findPurchaseById s npid = none) (hx : (x.id == npid) = true) :
    findPurchaseById ⟨s.purchases ++ [x], s.users⟩ npid = some x := by
  unfold findPurchaseById at hfresh ⊢
  rw [List.find?_append, hfresh]
  simp [hx]

/-- C8: on a valid checkout the side effects happen in order — create the
PENDING purchase with the plan's amount and currency, request the gateway
session with `{purchaseId, userId, targetRole}` metadata, then write the
returned session id into `externalId`; if the gateway request fails the
already-created purchase stays PENDING with no `externalId` and is not
rolled back. -/
theorem C8_checkout_effect_order (uid : Nat) (pid npid : String)
    (gw : Option String) (s : St) (u : User) (plan : Plan)
    (hu : findUserById s uid = some u)
    (hp : planLookup pid = some plan)
    (hrank : ROLE_RANK u.role < ROLE_RANK plan.role)
    (hfresh : findPurchaseById s npid = none) :
    ((createCheckoutSession (some uid) (some pid) npid gw s).trace.take 2
      = [.createPurchase ⟨npid, u.id, plan.role, .PENDING, some plan.amount,
           some plan.currency, some "stripe", none⟩,
         .gatewayRequest pid npid (toString u.id) plan.role])
    ∧ (gw = none →
        (createCheckoutSession (some uid) (some pid) npid gw s).resp = .serverError
        ∧ (createCheckoutSession (some uid) (some pid) npid gw s).state
            = ⟨s.purchases ++ [⟨npid, u.id, plan.role, .PENDING, some plan.amount,
                some plan.currency, some "stripe", none⟩], s.users⟩
        ∧ findPurchaseById (createCheckoutSession (some uid) (some pid) npid gw s).state npid
            = some ⟨npid, u.id, plan.role, .PENDING, some plan.amount,
                some plan.currency, some "stripe", none⟩)
    ∧ (∀ sid, gw = some sid →
        (createCheckoutSession (some uid) (some pid) npid gw s).trace
          = [.createPurchase ⟨npid, u.id, plan.role, .PENDING, some plan.amount,
               some plan.currency, some "stripe", none⟩,
             .gatewayRequest pid npid (toString u.id) plan.role,
             .setExternalId npid sid]
        ∧ findPurchaseById (createCheckoutSession (some uid) (some pid) npid gw s).state npid
            = some ⟨npid, u.id, plan.role, .PENDING, some plan.amount,
                some plan.currency, some "stripe", some sid⟩) := by
  have hg : ¬ (checkoutGuardRejects u.role plan.role = true) := by
    simp only [checkoutGuardRejects, decide_eq_true_eq]
    omega
  have happ : findPurchaseById
      ⟨s.purchases ++ [⟨npid, u.id, plan.role, .PENDING, some plan.amount,
        some plan.currency, some "stripe", none⟩], s.users⟩ npid
      = some ⟨npid, u.id, plan.role, .PENDING, some plan.amount,
          some plan.currency, some "stripe", none⟩ :=
    findPurchaseById_append_fresh s _ npid hfresh (by simp)
  unfold createCheckoutSession
  dsimp only
  rw [hp]
  dsimp only
  rw [hu]
  dsimp only
  rw [if_neg hg]
  cases gw with
  | none =>
    dsimp only
    exact ⟨rfl, fun _ => ⟨rfl, rfl, happ⟩, fun sid h => nomatch h⟩
  | some sid0 =>
    dsimp only
    refine ⟨rfl, ?_, ?_⟩
    · intro h
      cases h
    intro sid h
    cases h
    refine ⟨rfl, ?_⟩
    have := findPurchaseById_updatePurchase_self
      ⟨s.purchases ++ [⟨npid, u.id, plan.role, .PENDING, some plan.amount,
        some plan.currency, some "stripe", none⟩], s.users⟩ npid
      (fun p => { p with externalId := some sid0 }) _ (fun x => rfl) happ
    exact this

/-- C8 witness: a valid checkout with a failing gateway call leaves an
orphan PENDING purchase with no externalId; with a succeeding gateway call
the effects happen in the specified order. -/
theorem C8_checkout_effect_order_witness :
    ((createCheckoutSession (some 1) (some "price_1SHi5X3JFtC2WMSKqqCbjHoV") "p7" none
        ⟨[], [⟨1, .USER⟩]⟩).trace.take 2
      = [.createPurchase ⟨"p7", 1, .USER_GOLD, .PENDING, some 129900, some "THB", some "stripe", none⟩,
         .gatewayRequest "price_1SHi5X3JFtC2WMSKqqCbjHoV" "p7" "1" .USER_GOLD])
    ∧ (none = (none : Option String) →
        (createCheckoutSession (some 1) (some "price_1SHi5X3JFtC2WMSKqqCbjHoV") "p7" none
            ⟨[], [⟨1, .USER⟩]⟩).resp = .serverError
        ∧ (createCheckoutSession (some 1) (some "price_1SHi5X3JFtC2WMSKqqCbjHoV") "p7" none
            ⟨[], [⟨1, .USER⟩]⟩).state
            = ⟨[] ++ [⟨"p7", 1, .USER_GOLD, .PENDING, some 129900, some "THB", some "stripe", none⟩],
               [⟨1, .USER⟩]⟩
        ∧ findPurchaseById (createCheckoutSession (some 1) (some "price_1SHi5X3JFtC2WMSKqqCbjHoV")
            "p7" none ⟨[], [⟨1, .USER⟩]⟩).state "p7"
            = some ⟨"p7", 1, .USER_GOLD, .PENDING, some 129900, some "THB", some "stripe", none⟩)
    ∧ (∀ sid, (none : Option String) = some sid →
        (createCheckoutSession (some 1) (some "price_1SHi5X3JFtC2WMSKqqCbjHoV") "p7" none
            ⟨[], [⟨1, .USER⟩]⟩).trace
          = [.createPurchase ⟨"p7", 1, .USER_GOLD, .PENDING, some 129900, some "THB", some "stripe", none⟩,
             .gatewayRequest "price_1SHi5X3JFtC2WMSKqqCbjHoV" "p7" "1" .USER_GOLD,
             .setExternalId "p7" sid]
        ∧ findPurchaseById (createCheckoutSession (some 1) (some "price_1SHi5X3JFtC2WMSKqqCbjHoV")
            "p7" none ⟨[], [⟨1, .USER⟩]⟩).state "p7"
            = some ⟨"p7", 1, .USER_GOLD, .PENDING, some 129900, some "THB", some "stripe", some sid⟩) :=
  C8_checkout_effect_order 1 "price_1SHi5X3JFtC2WMSKqqCbjHoV" "p7" none ⟨[], [⟨1, .USER⟩]⟩
    ⟨1, .USER⟩ ⟨.USER_GOLD, 129900, "THB", "Gold 1299"⟩
    (by decide) (by decide) (by decide) (by decide)

/-- C9: an amount or currency mismatch against the plan registry's values
for the purchase's target role never blocks settlement: the purchase still
transitions to PAID recording the gateway-reported amount and the
uppercased gateway currency, a warning is recorded, and the role-upgrade
check still runs (upgrading exactly when the rank check passes). -/
theorem C9_mismatch_never_blocks (session : SessionObj) (s : St) (pid : String)
    (purchase : Purchase) (user : User) (plan : Plan)
    (hm : strTruthy session.metadata_purchaseId = some pid)
    (ht : session.metadata_targetRole = some purchase.targetRole)
    (hfind : findPurchaseById s pid = some purchase)
    (hnp : ¬ (purchase.status = .PAID))
    (huser : findUserById s purchase.userId = some user)
    (hplan : planForRole purchase.targetRole = some plan)
    (hmis : (∃ a, session.amount_total = some a ∧ a ≠ plan.amount)
      ∨ (∃ c, strTruthy session.currency = some c ∧ c.toUpper ≠ plan.currency.toUpper)) :
    (handleWebhook "checkout.session.completed" session s).warnings ≠ []
    ∧ findPurchaseById (handleWebhook "checkout.session.completed" session s).state pid
        = some (webhookPaidUpdate session purchase)
    ∧ (webhookPaidUpdate session purchase).status = .PAID
    ∧ (∀ a, session.amount_total = some a → (webhookPaidUpdate session purchase).amount = some a)
    ∧ (∀ c, strTruthy session.currency = some c →
        (webhookPaidUpdate session purchase).currency = some c.toUpper)
    ∧ userRole (handleWebhook "checkout.session.completed" session s).state purchase.userId
        = some (if ROLE_RANK user.role < ROLE_RANK purchase.targetRole
                then purchase.targetRole else user.role) := by
  have hbeq : (purchase.id == pid) = true :=
    find?_pred (fun x : Purchase => x.id == pid) s.purchases purchase hfind
  have hpidEq : purchase.id = pid := eq_of_beq hbeq
  have hwarn : crossCheckWarnings session purchase.targetRole ≠ [] := by
    unfold crossCheckWarnings
    rw [hplan]
    rcases hmis with ⟨a, ha, hne⟩ | ⟨c, hc, hne⟩
    · rw [ha]
      dsimp only
      rw [if_neg hne]
      simp
    · rw [hc]
      dsimp only
      rw [if_neg hne]
      simp
  have hset : findPurchaseById (updatePurchase s purchase.id (webhookPaidUpdate session)) pid
      = some (webhookPaidUpdate session purchase) := by
    rw [hpidEq]
    exact findPurchaseById_updatePurchase_self s pid _ purchase (fun x => rfl) hfind
  have hamount : ∀ a, session.amount_total = some a →
      (webhookPaidUpdate session purchase).amount = some a := by
    intro a ha
    unfold webhookPaidUpdate
    rw [ha]
  have hcur : ∀ c, strTruthy session.currency = some c →
      (webhookPaidUpdate session purchase).currency = some c.toUpper := by
    intro c hc
    unfold webhookPaidUpdate settledCurrency
    rw [hc]
  unfold handleWebhook
  rw [if_pos rfl, hm, ht]
  dsimp only
  rw [hfind]
  dsimp only
  rw [if_neg hnp]
  rw [findUserById_updatePurchase, huser]
  dsimp only
  by_cases hck : webhookUpgradeCheck purchase.targetRole user.role = true
  · rw [if_pos hck]
    have hlt : ROLE_RANK user.role < ROLE_RANK purchase.targetRole := by
      simpa [webhookUpgradeCheck, decide_eq_true_eq] using hck
    refine ⟨hwarn, ?_, rfl, hamount, hcur, ?_⟩
    · rw [findPurchaseById_updateUserRole]
      exact hset
    · rw [if_pos hlt]
      unfold userRole
      rw [findUserById_updateUserRole, findUserById_updatePurchase, huser]
      simp
  · rw [if_neg hck]
    have hnlt : ¬ (ROLE_RANK user.role < ROLE_RANK purchase.targetRole) := by
      simpa [webhookUpgradeCheck, decide_eq_true_eq] using hck
    refine ⟨hwarn, hset, rfl, hamount, hcur, ?_⟩
    rw [if_neg hnlt]
    unfold userRole
    rw [findUserById_updatePurchase, huser]
    rfl

/-- C9 witness: a paid event reporting 100 THB against an expected 129900
THB plan still settles the purchase (recording the reported 100 and the
uppercased currency) and still upgrades the user. -/
theorem C9_mismatch_never_blocks_witness :
    (handleWebhook "checkout.session.completed"
        ⟨"cs_1", "paid", "complete", some 100, some "thb", some "p1", some .USER_GOLD⟩
        ⟨[⟨"p1", 1, .USER_GOLD, .PENDING, some 129900, some "THB", some "stripe", some "cs_1"⟩],
         [⟨1, .USER⟩]⟩).warnings ≠ []
    ∧ findPurchaseById (handleWebhook "checkout.session.completed"
        ⟨"cs_1", "paid", "complete", some 100, some "thb", some "p1", some .USER_GOLD⟩
        ⟨[⟨"p1", 1, .USER_GOLD, .PENDING, some 129900, some "THB", some "stripe", some "cs_1"⟩],
         [⟨1, .USER⟩]⟩).state "p1"
        = some (webhookPaidUpdate
            ⟨"cs_1", "paid", "complete", some 100, some "thb", some "p1", some .USER_GOLD⟩
            ⟨"p1", 1, .USER_GOLD, .PENDING, some 129900, some "THB", some "stripe", some "cs_1"⟩)
    ∧ (webhookPaidUpdate
        ⟨"cs_1", "paid", "complete", some 100, some "thb", some "p1", some .USER_GOLD⟩
        ⟨"p1", 1, .USER_GOLD, .PENDING, some 129900, some "THB", some "stripe", some "cs_1"⟩).status
        = .PAID
    ∧ (∀ a, (some 100 : Option Int) = some a →
        (webhookPaidUpdate
          ⟨"cs_1", "paid", "complete", some 100, some "thb", some "p1", some .USER_GOLD⟩
          ⟨"p1", 1, .USER_GOLD, .PENDING, some 129900, some "THB", some "stripe", some "cs_1"⟩).amount
          = some a)
    ∧ (∀ c, strTruthy (some "thb") = some c →
        (webhookPaidUpdate
          ⟨"cs_1", "paid", "complete", some 100, some "thb", some "p1", some .USER_GOLD⟩
          ⟨"p1", 1, .USER_GOLD, .PENDING, some 129900, some "THB", some "stripe", some "cs_1"⟩).currency
          = some c.toUpper)
    ∧ userRole (handleWebhook "checkout.session.completed"
        ⟨"cs_1", "paid", "complete", some 100, some "thb", some "p1", some .USER_GOLD⟩
        ⟨[⟨"p1", 1, .USER_GOLD, .PENDING, some 129900, some "THB", some "stripe", some "cs_1"⟩],
         [⟨1, .USER⟩]⟩).state 1
        = some (if ROLE_RANK Role.USER < ROLE_RANK Role.USER_GOLD
                then Role.USER_GOLD else Role.USER) :=
  C9_mismatch_never_blocks
    ⟨"cs_1", "paid", "complete", some 100, some "thb", some "p1", some .USER_GOLD⟩
    ⟨[⟨"p1", 1, .USER_GOLD, .PENDING, some 129900, some "THB", some "stripe", some "cs_1"⟩],
     [⟨1, .USER⟩]⟩ "p1"
    ⟨"p1", 1, .USER_GOLD, .PENDING, some 129900, some "THB", some "stripe", some "cs_1"⟩
    ⟨1, .USER⟩ ⟨.USER_GOLD, 129900, "THB", "Gold 1299"⟩
    (by decide) (by decide) (by decide) (by decide) (by decide) (by decide)
    (Or.inl ⟨100, rfl, by decide⟩)

/-- C2 amended: the verify entry point resolves by `externalId` first and
falls back to the metadata purchase id, but the webhook entry point
resolves solely by the metadata purchase id (its fallback lookup is the
whole lookup); in both entry points, when the respective lookup resolves
no purchase the call leaves the store untouched. -/
theorem C2_amended_resolution (session : SessionObj) (s : St) (raw : String) :
    ((strTruthy session.metadata_purchaseId = none
      ∨ (∃ pid, strTruthy session.metadata_purchaseId = some pid
          ∧ findPurchaseById s pid = none)) →
      (handleWebhook "checkout.session.completed" session s).state = s)
    ∧ (∀ p, findPurchaseByExternalId s session.id = some p →
        verifyResolve s session = some p)
    ∧ (findPurchaseByExternalId s session.id = none →
        verifyResolve s session = webhookResolve s session)
    ∧ (verifyResolve s session = none → (verifySession raw session s).state = s) := by
  refine ⟨?_, ?_, ?_, ?_⟩
  · intro h
    unfold handleWebhook
    rw [if_pos rfl]
    rcases h with hnone | ⟨pid, hm, hnf⟩
    · rw [hnone]
    · rw [hm]
      cases session.metadata_targetRole with
      | none => rfl
      | some tr =>
        dsimp only
        rw [hnf]
  · intro p hext
    unfold verifyResolve
    rw [hext]
  · intro hext
    unfold verifyResolve webhookResolve
    rw [hext]
    cases strTruthy session.metadata_purchaseId with
    | none => rfl
    | some pid => rfl
  · intro hres
    unfold verifySession
    by_cases hraw : raw = ""
    · rw [if_pos hraw]
    · rw [if_neg hraw, hres]

/-- C2 amended witness: a webhook event whose metadata names no stored
purchase changes nothing; verify resolution prefers the `externalId`
match; with no `externalId` match verify falls back to exactly the
webhook's metadata lookup; an unresolved verify changes nothing. -/
theorem C2_amended_resolution_witness :
    (handleWebhook "checkout.session.completed"
        ⟨"cs_9", "paid", "complete", none, none, some "nope", some .USER_GOLD⟩ c2St).state = c2St
    ∧ verifyResolve c2St c2Sess
        = some ⟨"pA", 1, .USER_GOLD, .PENDING, some 129900, some "THB", some "stripe", some "cs_1"⟩
    ∧ verifyResolve ⟨[], []⟩ c2Sess = webhookResolve ⟨[], []⟩ c2Sess
    ∧ (verifySession "cs_9" ⟨"cs_9", "paid", "complete", none, none, none, none⟩
        ⟨[], []⟩).state = ⟨[], []⟩ :=
  ⟨(C2_amended_resolution
      ⟨"cs_9", "paid", "complete", none, none, some "nope", some .USER_GOLD⟩ c2St "x").1
      (Or.inr ⟨"nope", by decide, by decide⟩),
   (C2_amended_resolution c2Sess c2St "x").2.1
      ⟨"pA", 1, .USER_GOLD, .PENDING, some 129900, some "THB", some "stripe", some "cs_1"⟩
      (by decide),
   (C2_amended_resolution c2Sess ⟨[], []⟩ "x").2.2.1 (by decide),
   (C2_amended_resolution ⟨"cs_9", "paid", "complete", none, none, none, none⟩
      ⟨[], []⟩ "cs_9").2.2.2 (by decide)⟩

/-- Effect of the role write on an arbitrary observed user id: either the
observed id is the written user's id — whose role was the written user's
role before and is the new role after — or the observation is unchanged. -/
theorem userRole_updateUserRole_shape (s : St) (user : User) (tr : Role) (uid : Nat)
    (huser : findUserById s user.id = some user) :
    (uid = user.id ∧ userRole s uid = some user.role
      ∧ userRole (updateUserRole s user.id tr) uid = some tr)
    ∨ userRole (updateUserRole s user.id tr) uid = userRole s uid := by
  unfold userRole
  rw [findUserById_updateUserRole]
  cases hv : findUserById s uid with
  | none => exact Or.inr rfl
  | some v =>
    by_cases hvid : (v.id == user.id) = true
    · left
      have hv1 : v.id = user.id := eq_of_beq hvid
      have hv2 : (v.id == uid) = true :=
        find?_pred (fun u : User => u.id == uid) s.users v hv
      have hv3 : v.id = uid := eq_of_beq hv2
      have huid : uid = user.id := by rw [← hv3, hv1]
      have hveq : v = user := by
        rw [huid] at hv
        rw [hv] at huser
        exact Option.some.inj huser
      refine ⟨huid, ?_, ?_⟩
      · simp [hveq]
      · simp [hv1]
    · right
      have hne : ¬ (v.id = user.id) := fun h => hvid (by simp [h])
      simp [hne]

/-- A purchase the verify path resolves is a member of the store. -/
theorem purchase_mem_of_resolve (s : St) (session : SessionObj) (p : Purchase)
    (hres : verifyResolve s session = some p) : p ∈ s.purchases := by
  unfold verifyResolve at hres
  cases hext : findPurchaseByExternalId s session.id with
  | some q =>
    rw [hext] at hres
    cases hres
    exact List.mem_of_find?_eq_some hext
  | none =>
    rw [hext] at hres
    cases hm : strTruthy session.metadata_purchaseId with
    | none =>
      rw [hm] at hres
      cases hres
    | some pid =>
      rw [hm] at hres
      exact List.mem_of_find?_eq_some hres

/-- After the verify path's paid update of the resolved purchase, verify
resolution on the new store yields exactly the updated purchase (the
update stamps `externalId := session.id`, so the externalId lookup finds
it), provided purchase ids are unique. -/
theorem verifyResolve_after_settle (session : SessionObj) (s : St) (p : Purchase)
    (hnodup : (s.purchases.map Purchase.id).Nodup)
    (hres : verifyResolve s session = some p) :
    verifyResolve (updatePurchase s p.id (verifyPaidUpdate session)) session
      = some (verifyPaidUpdate session p) := by
  have hmem : p ∈ s.purchases := purchase_mem_of_resolve s session p hres
  have huniq : ∀ x ∈ s.purchases, (x.id == p.id) = true → x = p := by
    intro x hx hbx
    exact List.inj_on_of_nodup_map hnodup hx hmem (eq_of_beq hbx)
  have hgq : ((verifyPaidUpdate session p).externalId == some session.id) = true := by
    simp [verifyPaidUpdate]
  have hmp : (p.id == p.id) = true := by simp
  have hfront : findPurchaseByExternalId
      (updatePurchase s p.id (verifyPaidUpdate session)) session.id
      = some (verifyPaidUpdate session p) := by
    cases hext : findPurchaseByExternalId s session.id with
    | some q =>
      have hqp : q = p := by
        unfold verifyResolve at hres
        rw [hext] at hres
        exact Option.some.inj hres
      subst hqp
      refine find?_map_if _ _ _ s.purchases q hext ?_ hmp hgq
      intro x hx hmx
      have hxq : x = q := huniq x hx hmx
      subst hxq
      exact find?_pred (fun y : Purchase => y.externalId == some session.id)
        s.purchases x hext
    | none =>
      exact find?_map_if_none _ _ _ s.purchases p hext hmem huniq hmp hgq
  unfold verifyResolve
  rw [hfront]

/-- One webhook call either leaves every observed role unchanged, or sets
the resolved purchase's user to the purchase's target role (assuming the
event metadata's target role agrees with the resolved purchase, as it does
for every session this system creates), and only when that target strictly
outranks the role held before the call. -/
theorem webhook_role_shape (eventType : String) (session : SessionObj) (s : St) (uid : Nat)
    (hwf : ∀ pid p, strTruthy session.metadata_purchaseId = some pid →
        findPurchaseById s pid = some p → session.metadata_targetRole = some p.targetRole) :
    userRole (handleWebhook eventType session s).state uid = userRole s uid
    ∨ ∃ p r, webhookResolve s session = some p
        ∧ userRole s uid = some r
        ∧ userRole (handleWebhook eventType session s).state uid = some p.targetRole
        ∧ ROLE_RANK r < ROLE_RANK p.targetRole := by
  unfold handleWebhook
  by_cases het : eventType = "checkout.session.completed"
  case neg =>
    rw [if_neg het]
    exact Or.inl rfl
  rw [if_pos het]
  cases hm : strTruthy session.metadata_purchaseId with
  | none =>
    cases session.metadata_targetRole with
    | none => exact Or.inl rfl
    | some tr => exact Or.inl rfl
  | some pid =>
    cases ht : session.metadata_targetRole with
    | none => exact Or.inl rfl
    | some tr =>
      dsimp only
      cases hfind : findPurchaseById s pid with
      | none => exact Or.inl rfl
      | some purchase =>
        dsimp only
        by_cases hst : purchase.status = PaymentStatus.PAID
        · rw [if_pos hst]
          exact Or.inl rfl
        rw [if_neg hst]
        rw [findUserById_updatePurchase]
        cases huser : findUserById s purchase.userId with
        | none =>
          dsimp only
          left
          unfold userRole
          rw [findUserById_updatePurchase]
        | some user =>
          dsimp only
          have htr : tr = purchase.targetRole := by
            have h1 := hwf pid purchase hm hfind
            rw [ht] at h1
            exact Option.some.inj h1
          subst htr
          by_cases hck : webhookUpgradeCheck purchase.targetRole user.role = true
          case neg =>
            rw [if_neg hck]
            left
            unfold userRole
            rw [findUserById_updatePurchase]
          rw [if_pos hck]
          have hlt : ROLE_RANK user.role < ROLE_RANK purchase.targetRole := by
            simpa [webhookUpgradeCheck] using hck
          have huser2 : findUserById s user.id = some user := by
            have hb : (user.id == purchase.userId) = true :=
              find?_pred (fun u : User => u.id == purchase.userId) s.users user huser
            rw [eq_of_beq hb]
            exact huser
          have hshape := userRole_updateUserRole_shape
            (updatePurchase s purchase.id (webhookPaidUpdate session)) user
            purchase.targetRole uid huser2
          rcases hshape with ⟨huid, hbefore, hafter⟩ | hsame
      -- written branch: the observed id is the written user's id
          · right
            refine ⟨purchase, user.role, ?_, ?_, hafter, hlt⟩
            · unfold webhookResolve
              rw [hm]
              exact hfind
            · rw [huid]
              unfold userRole
              rw [huser2]
              rfl
          · left
            rw [hsame]
            unfold userRole
            rw [findUserById_updatePurchase]

/-- A second webhook delivery of the same event leaves the store exactly
where the first left it: if the first call settled, the second hits the
PAID gate; otherwise the first call did not change the store at all. -/
theorem webhook_idem (eventType : String) (session : SessionObj) (s : St) :
    (handleWebhook eventType session (handleWebhook eventType session s).state).state
      = (handleWebhook eventType session s).state := by
  by_cases het : eventType = "checkout.session.completed"
  case neg =>
    have h1 : (handleWebhook eventType session s).state = s := by
      unfold handleWebhook
      rw [if_neg het]
    rw [h1]
    exact h1
  cases hm : strTruthy session.metadata_purchaseId with
  | none =>
    have h1 : (handleWebhook eventType session s).state = s := by
      unfold handleWebhook
      rw [if_pos het, hm]
    rw [h1]
    exact h1
  | some pid =>
    cases ht : session.metadata_targetRole with
    | none =>
      have h1 : (handleWebhook eventType session s).state = s := by
        unfold handleWebhook
        rw [if_pos het, hm, ht]
      rw [h1]
      exact h1
    | some tr =>
      cases hfind : findPurchaseById s pid with
      | none =>
        have h1 : (handleWebhook eventType session s).state = s := by
          unfold handleWebhook
          rw [if_pos het, hm, ht]
          dsimp only
          rw [hfind]
        rw [h1]
        exact h1
      | some purchase =>
        by_cases hst : purchase.status = PaymentStatus.PAID
        · have h1 : (handleWebhook eventType session s).state = s := by
            unfold handleWebhook
            rw [if_pos het, hm, ht]
            dsimp only
            rw [hfind]
            dsimp only
            rw [if_pos hst]
          rw [h1]
          exact h1
        have hpe : purchase.id = pid :=
          eq_of_beq (find?_pred (fun x : Purchase => x.id == pid) s.purchases purchase hfind)
        subst hpe
        have hset : findPurchaseById
            (updatePurchase s purchase.id (webhookPaidUpdate session)) purchase.id
            = some (webhookPaidUpdate session purchase) :=
          findPurchaseById_updatePurchase_self s purchase.id _ purchase (fun x => rfl) hfind
        have hsecond : ∀ s2 : St,
            findPurchaseById s2 purchase.id = some (webhookPaidUpdate session purchase) →
            (handleWebhook eventType session s2).state = s2 := by
          intro s2 h2
          unfold handleWebhook
          rw [if_pos het, hm, ht]
          dsimp only
          rw [h2]
          dsimp only
          rw [if_pos (show (webhookPaidUpdate session purchase).status = PaymentStatus.PAID
            from rfl)]
        cases huser : findUserById s purchase.userId with
        | none =>
          have h1 : (handleWebhook eventType session s).state
              = updatePurchase s purchase.id (webhookPaidUpdate session) := by
            unfold handleWebhook
            rw [if_pos het, hm, ht]
            dsimp only
            rw [hfind]
            dsimp only
            rw [if_neg hst]
            rw [findUserById_updatePurchase, huser]
          rw [h1]
          exact hsecond _ hset
        | some user =>
          by_cases hck : webhookUpgradeCheck tr user.role = true
          · have h1 : (handleWebhook eventType session s).state
                = updateUserRole (updatePurchase s purchase.id (webhookPaidUpdate session))
                    user.id tr := by
              unfold handleWebhook
              rw [if_pos het, hm, ht]
              dsimp only
              rw [hfind]
              dsimp only
              rw [if_neg hst]
              rw [findUserById_updatePurchase, huser]
              dsimp only
              rw [if_pos hck]
            rw [h1]
            refine hsecond _ ?_
            rw [findPurchaseById_updateUserRole]
            exact hset
          · have h1 : (handleWebhook eventType session s).state
                = updatePurchase s purchase.id (webhookPaidUpdate session) := by
              unfold handleWebhook
              rw [if_pos het, hm, ht]
              dsimp only
              rw [hfind]
              dsimp only
              rw [if_neg hst]
              rw [findUserById_updatePurchase, huser]
              dsimp only
              rw [if_neg hck]
            rw [h1]
            exact hsecond _ hset

/-- One verify call either leaves every observed role unchanged, or sets
the resolved purchase's user to that purchase's target role, and only when
that target strictly outranks the role held before the call. -/
theorem verify_role_shape (raw : String) (session : SessionObj) (s : St) (uid : Nat) :
    userRole (verifySession raw session s).state uid = userRole s uid
    ∨ ∃ p r, verifyResolve s session = some p
        ∧ userRole s uid = some r
        ∧ userRole (verifySession raw session s).state uid = some p.targetRole
        ∧ ROLE_RANK r < ROLE_RANK p.targetRole := by
  unfold verifySession
  by_cases hraw : raw = ""
  · rw [if_pos hraw]
    exact Or.inl rfl
  rw [if_neg hraw]
  cases hres : verifyResolve s session with
  | none => exact Or.inl rfl
  | some p =>
    dsimp only
    cases huser : findUserById s p.userId with
    | none => exact Or.inl rfl
    | some user =>
      dsimp only
      by_cases hp : verifyIsPaid session = true
      case neg =>
        rw [if_neg hp]
        exact Or.inl rfl
      rw [if_pos hp]
      have huser2 : findUserById s user.id = some user := by
        have hb : (user.id == p.userId) = true :=
          find?_pred (fun u : User => u.id == p.userId) s.users user huser
        rw [eq_of_beq hb]
        exact huser
      by_cases hst : p.status = PaymentStatus.PAID
      · rw [if_pos hst]
        by_cases hck : verifyUpgradeCheck p.targetRole user.role = true
        case neg =>
          rw [if_neg hck]
          exact Or.inl rfl
        rw [if_pos hck]
        dsimp only
        have hlt : ROLE_RANK user.role < ROLE_RANK p.targetRole := by
          simpa [verifyUpgradeCheck] using hck
        rcases userRole_updateUserRole_shape s user p.targetRole uid huser2 with
          ⟨huid, hbefore, hafter⟩ | hsame
        · refine Or.inr ⟨p, user.role, rfl, ?_, hafter, hlt⟩
          rw [huid]
          unfold userRole
          rw [huser2]
          rfl
        · exact Or.inl hsame
      · rw [if_neg hst]
        dsimp only [verifyPaidUpdate_targetRole]
        by_cases hck : verifyUpgradeCheck p.targetRole user.role = true
        case neg =>
          rw [if_neg hck]
          dsimp only
          left
          unfold userRole
          rw [findUserById_updatePurchase]
        rw [if_pos hck]
        dsimp only
        have hlt : ROLE_RANK user.role < ROLE_RANK p.targetRole := by
          simpa [verifyUpgradeCheck] using hck
        rcases userRole_updateUserRole_shape
            (updatePurchase s p.id (verifyPaidUpdate session)) user p.targetRole uid huser2 with
          ⟨huid, hbefore, hafter⟩ | hsame
        · refine Or.inr ⟨p, user.role, rfl, ?_, hafter, hlt⟩
          rw [huid]
          unfold userRole
          rw [huser2]
          rfl
        · left
          rw [hsame]
          unfold userRole
          rw [findUserById_updatePurchase]

/-- Re-running verify on the store it produced changes nothing: whatever
the first call settled or upgraded, the second call's status gate and rank
check both refuse, so the store is a fixed point after one call. -/
theorem verify_idem (raw : String) (session : SessionObj) (s : St)
    (hnodup : (s.purchases.map Purchase.id).Nodup) :
    (verifySession raw session (verifySession raw session s).state).state
      = (verifySession raw session s).state := by
  by_cases hraw : raw = ""
  · have h1 : (verifySession raw session s).state = s := by
      unfold verifySession
      rw [if_pos hraw]
    rw [h1]
    exact h1
  cases hres : verifyResolve s session with
  | none =>
    have h1 : (verifySession raw session s).state = s := by
      unfold verifySession
      rw [if_neg hraw, hres]
    rw [h1]
    exact h1
  | some p =>
    cases huser : findUserById s p.userId with
    | none =>
      have h1 : (verifySession raw session s).state = s := by
        unfold verifySession
        rw [if_neg hraw, hres]
        dsimp only
        rw [huser]
      rw [h1]
      exact h1
    | some user =>
      by_cases hp : verifyIsPaid session = true
      case neg =>
        have h1 : (verifySession raw session s).state = s := by
          unfold verifySession
          rw [if_neg hraw, hres]
          dsimp only
          rw [huser]
          dsimp only
          rw [if_neg hp]
        rw [h1]
        exact h1
      by_cases hst : p.status = PaymentStatus.PAID
      · by_cases hck : verifyUpgradeCheck p.targetRole user.role = true
        case neg =>
          have h1 : (verifySession raw session s).state = s := by
            unfold verifySession
            rw [if_neg hraw, hres]
            dsimp only
            rw [huser]
            dsimp only
            rw [if_pos hp, if_pos hst, if_neg hck]
          rw [h1]
          exact h1
        have h1 : (verifySession raw session s).state
            = updateUserRole s user.id p.targetRole := by
          unfold verifySession
          rw [if_neg hraw, hres]
          dsimp only
          rw [huser]
          dsimp only
          rw [if_pos hp, if_pos hst, if_pos hck]
        rw [h1]
        have hres2 : verifyResolve (updateUserRole s user.id p.targetRole) session = some p := by
          rw [verifyResolve_updateUserRole]
          exact hres
        have huser2 : findUserById (updateUserRole s user.id p.targetRole) p.userId
            = some { user with role := p.targetRole } := by
          rw [findUserById_updateUserRole, huser]
          simp
        have hck2 : ¬ (verifyUpgradeCheck p.targetRole
            ({ user with role := p.targetRole } : User).role = true) := by
          simp [verifyUpgradeCheck]
        unfold verifySession
        rw [if_neg hraw, hres2]
        dsimp only
        rw [huser2]
        dsimp only
        rw [if_pos hp, if_pos hst, if_neg hck2]
      · have hres2 : verifyResolve (updatePurchase s p.id (verifyPaidUpdate session)) session
            = some (verifyPaidUpdate session p) :=
          verifyResolve_after_settle session s p hnodup hres
        have hpaid2 : (verifyPaidUpdate session p).status = PaymentStatus.PAID := rfl
        by_cases hck : verifyUpgradeCheck p.targetRole user.role = true
        · have h1 : (verifySession raw session s).state
              = updateUserRole (updatePurchase s p.id (verifyPaidUpdate session))
                  user.id p.targetRole := by
            unfold verifySession
            rw [if_neg hraw, hres]
            dsimp only
            rw [huser]
            dsimp only
            rw [if_pos hp, if_neg hst]
            dsimp only [verifyPaidUpdate_targetRole]
            rw [if_pos hck]
          rw [h1]
          have hres3 : verifyResolve
              (updateUserRole (updatePurchase s p.id (verifyPaidUpdate session))
                user.id p.targetRole) session
              = some (verifyPaidUpdate session p) := by
            rw [verifyResolve_updateUserRole]
            exact hres2
          have huser3 : findUserById
              (updateUserRole (updatePurchase s p.id (verifyPaidUpdate session))
                user.id p.targetRole) (verifyPaidUpdate session p).userId
              = some { user with role := p.targetRole } := by
            rw [findUserById_updateUserRole, findUserById_updatePurchase]
            have : (verifyPaidUpdate session p).userId = p.userId := rfl
            rw [this, huser]
            simp
          have hck2 : ¬ (verifyUpgradeCheck (verifyPaidUpdate session p).targetRole
              ({ user with role := p.targetRole } : User).role = true) := by
            simp [verifyUpgradeCheck, verifyPaidUpdate]
          unfold verifySession
          rw [if_neg hraw, hres3]
          dsimp only
          rw [huser3]
          dsimp only
          rw [if_pos hp, if_pos hpaid2, if_neg hck2]
        · have h1 : (verifySession raw session s).state
              = updatePurchase s p.id (verifyPaidUpdate session) := by
            unfold verifySession
            rw [if_neg hraw, hres]
            dsimp only
            rw [huser]
            dsimp only
            rw [if_pos hp, if_neg hst]
            dsimp only [verifyPaidUpdate_targetRole]
            rw [if_neg hck]
          rw [h1]
          have huser3 : findUserById (updatePurchase s p.id (verifyPaidUpdate session))
              (verifyPaidUpdate session p).userId = some user := by
            rw [findUserById_updatePurchase]
            exact huser
          have hck2 : ¬ (verifyUpgradeCheck (verifyPaidUpdate session p).targetRole
              user.role = true) := by
            simpa [verifyUpgradeCheck, verifyPaidUpdate] using hck
          unfold verifySession
          rw [if_neg hraw, hres2]
          dsimp only
          rw [huser3]
          dsimp only
          rw [if_pos hp, if_pos hpaid2, if_neg hck2]

/-- C4: every reconcile invocation (webhook or verify) either leaves a
user's role unchanged or sets it to the resolved purchase's target role,
and does the latter only when the target strictly outranks the role held
immediately before; moreover each handler is idempotent on the store, so
repeated reconciliation after settlement changes the role at most once in
total and never to a lower-ranked role.  (For the webhook the role written
is the event metadata's target role; the hypothesis `hwf` records that the
metadata agrees with the resolved purchase, as it does for every checkout
session this system creates.) -/
theorem C4_role_monotone_and_at_most_once
    (eventType raw : String) (session : SessionObj) (s : St) (uid : Nat)
    (hwf : ∀ pid p, strTruthy session.metadata_purchaseId = some pid →
        findPurchaseById s pid = some p → session.metadata_targetRole = some p.targetRole)
    (hnodup : (s.purchases.map Purchase.id).Nodup) :
    (userRole (handleWebhook eventType session s).state uid = userRole s uid
      ∨ ∃ p r, webhookResolve s session = some p
          ∧ userRole s uid = some r
          ∧ userRole (handleWebhook eventType session s).state uid = some p.targetRole
          ∧ ROLE_RANK r < ROLE_RANK p.targetRole)
    ∧ (userRole (verifySession raw session s).state uid = userRole s uid
      ∨ ∃ p r, verifyResolve s session = some p
          ∧ userRole s uid = some r
          ∧ userRole (verifySession raw session s).state uid = some p.targetRole
          ∧ ROLE_RANK r < ROLE_RANK p.targetRole)
    ∧ (handleWebhook eventType session (handleWebhook eventType session s).state).state
        = (handleWebhook eventType session s).state
    ∧ (verifySession raw session (verifySession raw session s).state).state
        = (verifySession raw session s).state :=
  ⟨webhook_role_shape eventType session s uid hwf,
   verify_role_shape raw session s uid,
   webhook_idem eventType session s,
   verify_idem raw session s hnodup⟩

/-- C4 witness: a paid session with no correlation metadata against a lone
PENDING Gold purchase and a USER-ranked user: both handlers satisfy the
role-change shape and both are idempotent on the resulting store. -/
theorem C4_role_monotone_and_at_most_once_witness :
    (userRole (handleWebhook "checkout.session.completed"
        ⟨"cs_1", "paid", "complete", some 129900, some "THB", none, none⟩
        ⟨[⟨"p1", 1, .USER_GOLD, .PENDING, some 129900, some "THB", some "stripe", some "cs_1"⟩],
         [⟨1, .USER⟩]⟩).state 1
      = userRole ⟨[⟨"p1", 1, .USER_GOLD, .PENDING, some 129900, some "THB", some "stripe",
          some "cs_1"⟩], [⟨1, .USER⟩]⟩ 1
      ∨ ∃ p r, webhookResolve
            ⟨[⟨"p1", 1, .USER_GOLD, .PENDING, some 129900, some "THB", some "stripe", some "cs_1"⟩],
             [⟨1, .USER⟩]⟩
            ⟨"cs_1", "paid", "complete", some 129900, some "THB", none, none⟩ = some p
          ∧ userRole ⟨[⟨"p1", 1, .USER_GOLD, .PENDING, some 129900, some "THB", some "stripe",
              some "cs_1"⟩], [⟨1, .USER⟩]⟩ 1 = some r
          ∧ userRole (handleWebhook "checkout.session.completed"
              ⟨"cs_1", "paid", "complete", some 129900, some "THB", none, none⟩
              ⟨[⟨"p1", 1, .USER_GOLD, .PENDING, some 129900, some "THB", some "stripe", some "cs_1"⟩],
               [⟨1, .USER⟩]⟩).state 1 = some p.targetRole
          ∧ ROLE_RANK r < ROLE_RANK p.targetRole)
    ∧ (userRole (verifySession "cs_1"
        ⟨"cs_1", "paid", "complete", some 129900, some "THB", none, none⟩
        ⟨[⟨"p1", 1, .USER_GOLD, .PENDING, some 129900, some "THB", some "stripe", some "cs_1"⟩],
         [⟨1, .USER⟩]⟩).state 1
      = userRole ⟨[⟨"p1", 1, .USER_GOLD, .PENDING, some 129900, some "THB", some "stripe",
          some "cs_1"⟩], [⟨1, .USER⟩]⟩ 1
      ∨ ∃ p r, verifyResolve
            ⟨[⟨"p1", 1, .USER_GOLD, .PENDING, some 129900, some "THB", some "stripe", some "cs_1"⟩],
             [⟨1, .USER⟩]⟩
            ⟨"cs_1", "paid", "complete", some 129900, some "THB", none, none⟩ = some p
          ∧ userRole ⟨[⟨"p1", 1, .USER_GOLD, .PENDING, some 129900, some "THB", some "stripe",
              some "cs_1"⟩], [⟨1, .USER⟩]⟩ 1 = some r
          ∧ userRole (verifySession "cs_1"
              ⟨"cs_1", "paid", "complete", some 129900, some "THB", none, none⟩
              ⟨[⟨"p1", 1, .USER_GOLD, .PENDING, some 129900, some "THB", some "stripe", some "cs_1"⟩],
               [⟨1, .USER⟩]⟩).state 1 = some p.targetRole
          ∧ ROLE_RANK r < ROLE_RANK p.targetRole)
    ∧ (handleWebhook "checkout.session.completed"
        ⟨"cs_1", "paid", "complete", some 129900, some "THB", none, none⟩
        (handleWebhook "checkout.session.completed"
          ⟨"cs_1", "paid", "complete", some 129900, some "THB", none, none⟩
          ⟨[⟨"p1", 1, .USER_GOLD, .PENDING, some 129900, some "THB", some "stripe", some "cs_1"⟩],
           [⟨1, .USER⟩]⟩).state).state
      = (handleWebhook "checkout.session.completed"
          ⟨"cs_1", "paid", "complete", some 129900, some "THB", none, none⟩
          ⟨[⟨"p1", 1, .USER_GOLD, .PENDING, some 129900, some "THB", some "stripe", some "cs_1"⟩],
           [⟨1, .USER⟩]⟩).state
    ∧ (verifySession "cs_1"
        ⟨"cs_1", "paid", "complete", some 129900, some "THB", none, none⟩
        (verifySession "cs_1"
          ⟨"cs_1", "paid", "complete", some 129900, some "THB", none, none⟩
          ⟨[⟨"p1", 1, .USER_GOLD, .PENDING, some 129900, some "THB", some "stripe", some "cs_1"⟩],
           [⟨1, .USER⟩]⟩).state).state
      = (verifySession "cs_1"
          ⟨"cs_1", "paid", "complete", some 129900, some "THB", none, none⟩
          ⟨[⟨"p1", 1, .USER_GOLD, .PENDING, some 129900, some "THB", some "stripe", some "cs_1"⟩],
           [⟨1, .USER⟩]⟩).state :=
  C4_role_monotone_and_at_most_once "checkout.session.completed" "cs_1"
    ⟨"cs_1", "paid", "complete", some 129900, some "THB", none, none⟩
    ⟨[⟨"p1", 1, .USER_GOLD, .PENDING, some 129900, some "THB", some "stripe", some "cs_1"⟩],
     [⟨1, .USER⟩]⟩ 1
    (by intro pid p hm hf
        simp [strTruthy] at hm)
    (by decide)

end Fitmate
